import Mathlib

/-!
Shallow embedding of src/src/modal/modal.js (the baseweb Modal component).

The component is a state machine: host-supplied props (isOpen, closeable,
autofocus, ...), internal state (mounted, isVisible), instance fields
(animateOutTimer, animateStartTimer, lastFocus), and a DOM-like host
environment (active element, pending timers and animation frames, the
document key listener, the onClose callback log).  Deferred callbacks are
modelled by id: setTimeout and requestAnimationFrame record (id, due) pairs
in the environment; firing and cancellation manipulate those lists.  The
only callback ever passed to setTimeout is animateOutComplete (sets
isVisible to false) and the only one passed to requestAnimationFrame is the
closure that sets isVisible to true, so no callback values need storing.
-/

/-- Modelled from the spec: CLOSE_SOURCE from src/modal/constants.js (not in
src/), the tagged enum identifying why a close was requested. -/
inductive CloseSource
  | escape
  | backdrop
  | closeButton
deriving DecidableEq, Repr

/-- Modelled from the spec: ROLE from src/modal/constants.js (not in src/). -/
inductive Role
  | dialog
  | alertdialog
deriving DecidableEq, Repr

/-- Modelled from the spec: SIZE from src/modal/constants.js (not in src/);
only the value named by the spec is listed, sizes are opaque to core logic. -/
inductive Size
  | default
deriving DecidableEq, Repr

/-- A DOM element of the host environment: an identity plus whether it has a
focus method (the code tolerates IE11 elements that cannot focus). -/
structure Elem where
  id : Nat
  canFocus : Bool
deriving DecidableEq, Repr

/-- A ref handle as returned by Modal.getRef: either an internally managed
ref created per component name, or the ref supplied by the host in the
Dialog override props. -/
inductive RefHandle
  | internalRef (name : String)
  | overrideRef (r : Nat)
deriving DecidableEq, Repr

/-- Modelled from the spec: the overrides mapping (helpers/overrides.js is
not in src/).  Only the field the core logic reads is kept: the optional
ref supplied in the Dialog override props, extracted by getOverrideProps. -/
structure Overrides where
  dialogRef : Option Nat
deriving DecidableEq, Repr

/-- The ModalPropsT fields the core logic reads.  The onClose callback is
modelled by presence (hasOnClose); its invocations are logged in the
environment. -/
structure ModalProps where
  isOpen : Bool
  closeable : Bool
  autofocus : Bool
  animate : Bool
  size : Size
  role : Role
  mountNode : Option Elem
  hasOnClose : Bool
  overrides : Overrides
deriving DecidableEq, Repr

/-- ModalStateT: the React state of the component. -/
structure ModalState where
  isVisible : Bool
  mounted : Bool
deriving DecidableEq, Repr

/-- The DOM-like host environment.  pendingFrames and pendingTimeouts hold
(id, due) pairs of scheduled, not yet fired or cancelled callbacks; nextId
generates fresh ids; frameDelay is how far in the future the next paint
frame lies; scrollResets logs which ref handle had its scrollTop set to 0;
onCloseCalls logs invocations of the onClose callback. -/
structure Env where
  now : Nat
  nextId : Nat
  frameDelay : Nat
  pendingFrames : List (Nat × Nat)
  pendingTimeouts : List (Nat × Nat)
  activeElement : Option Elem
  documentBody : Option Elem
  overrideCur : Option Elem
  internalRootCur : Option Elem
  internalDialogCur : Option Elem
  scrollResets : List RefHandle
  onCloseCalls : List CloseSource
deriving DecidableEq, Repr

/-- Dereference a ref handle (the .current field of a React ref).  Only the
Root and Dialog internal refs are ever dereferenced by the component. -/
def Env.refCurrent (e : Env) : RefHandle → Option Elem
  | .overrideRef _ => e.overrideCur
  | .internalRef name =>
      if name = "Root" then e.internalRootCur
      else if name = "Dialog" then e.internalDialogCur
      else none

/-- setTimeout: returns the fresh timer id and the environment with the new
pending timeout due after the given delay. -/
def setTimeout (e : Env) (delay : Nat) : Nat × Env :=
  (e.nextId,
   { e with
      pendingTimeouts := e.pendingTimeouts ++ [(e.nextId, e.now + delay)],
      nextId := e.nextId + 1 })

/-- requestAnimationFrame: returns the fresh frame id and the environment
with the new pending frame callback due at the next paint frame. -/
def requestAnimationFrame (e : Env) : Nat × Env :=
  (e.nextId,
   { e with
      pendingFrames := e.pendingFrames ++ [(e.nextId, e.now + e.frameDelay)],
      nextId := e.nextId + 1 })

/-- clearTimeout: cancel the pending timeout with the given id (no-op when
absent). -/
def clearTimeout (e : Env) (id : Nat) : Env :=
  { e with pendingTimeouts := e.pendingTimeouts.filter (fun p => p.1 ≠ id) }

/-- cancelAnimationFrame: cancel the pending frame callback with the given
id (no-op when absent). -/
def cancelAnimationFrame (e : Env) (id : Nat) : Env :=
  { e with pendingFrames := e.pendingFrames.filter (fun p => p.1 ≠ id) }

/-- The whole world: the Modal instance (props, state, instance fields,
whether its keyup listener is attached to the document) plus the host
environment. -/
structure World where
  props : ModalProps
  st : ModalState
  animateOutTimer : Option Nat
  animateStartTimer : Option Nat
  lastFocus : Option Elem
  docListener : Bool
  env : Env
deriving DecidableEq, Repr

/-- Modal.getRef, modal.js lines 217 to 229: the props of the Dialog
override are consulted first, and when they carry a ref it is returned for
EVERY component name; otherwise the internally managed per-name ref is
returned. -/
def Modal.getRef (w : World) (component : String) : RefHandle :=
  match w.props.overrides.dialogRef with
  | some overrideRef => .overrideRef overrideRef
  | none => .internalRef component

/-- Modal.getMountNode, lines 202 to 210: the mountNode prop when present,
else document.body (which render treats as possibly absent). -/
def Modal.getMountNode (w : World) : Option Elem :=
  match w.props.mountNode with
  | some mountNode => some mountNode
  | none => w.env.documentBody

/-- Modal.addDomEvents, lines 77 to 81: attach the document keyup
listener. -/
def Modal.addDomEvents (w : World) : World :=
  { w with docListener := true }

/-- Modal.removeDomEvents, lines 83 to 87: detach the document keyup
listener. -/
def Modal.removeDomEvents (w : World) : World :=
  { w with docListener := false }

/-- Modal.clearTimers, lines 117 to 125: cancel the timeout named by
animateOutTimer and the frame named by animateStartTimer, when set.  The
fields themselves are not nulled, exactly as in the source. -/
def Modal.clearTimers (w : World) : World :=
  let w1 :=
    match w.animateOutTimer with
    | some id => { w with env := clearTimeout w.env id }
    | none => w
  match w1.animateStartTimer with
  | some id => { w1 with env := cancelAnimationFrame w1.env id }
  | none => w1

/-- Modal.captureLastFocus, lines 159 to 161: store the active element of
the owner document into lastFocus. -/
def Modal.captureLastFocus (w : World) : World :=
  { w with lastFocus := w.env.activeElement }

/-- Modal.restoreLastFocus, lines 163 to 171: when lastFocus is held, focus
it when it can be focused (IE11 tolerance), then clear the memento. -/
def Modal.restoreLastFocus (w : World) : World :=
  match w.lastFocus with
  | some el =>
      if el.canFocus then
        { w with lastFocus := none, env := { w.env with activeElement := some el } }
      else
        { w with lastFocus := none }
  | none => w

/-- Modal.autoFocus, lines 173 to 182: when the autofocus prop is set and
the Dialog ref resolves, focus the dialog element. -/
def Modal.autoFocus (w : World) : World :=
  if w.props.autofocus = false then w
  else
    match w.env.refCurrent (Modal.getRef w "Dialog") with
    | none => w
    | some dialog => { w with env := { w.env with activeElement := some dialog } }

/-- Modal.open lines 132 to 137: when the Root ref resolves, reset its
scrollTop to 0 (logged as a scroll reset on that handle). -/
def Modal.resetScrollTop (w : World) : World :=
  match w.env.refCurrent (Modal.getRef w "Root") with
  | some _ =>
      { w with env := { w.env with scrollResets := w.env.scrollResets ++ [Modal.getRef w "Root"] } }
  | none => w

/-- Modal.animateOutComplete, lines 184 to 188: set isVisible to false. -/
def Modal.animateOutComplete (w : World) : World :=
  { w with st := { w.st with isVisible := false } }

/-- Modal.open, lines 127 to 147 (open is a Lean keyword, hence openModal):
capture the last focus, autofocus the dialog, reset the Root scroll, clear
existing timers, attach dom events, and schedule the next-frame callback
that flips isVisible to true. -/
def Modal.openModal (w0 : World) : World :=
  let w1 := Modal.captureLastFocus w0
  let w2 := Modal.autoFocus w1
  let w3 := Modal.resetScrollTop w2
  let w4 := Modal.clearTimers w3
  let w5 := Modal.addDomEvents w4
  let p := requestAnimationFrame w5.env
  { w5 with env := p.2, animateStartTimer := some p.1 }

/-- Modal.close, lines 149 to 157: invoke onClose only when both a source
and a callback are present, detach dom events, schedule the 500-unit
animate-out timeout, and restore the last focus. -/
def Modal.close (w0 : World) (source : Option CloseSource) : World :=
  let w1 :=
    if w0.props.hasOnClose then
      match source with
      | some s =>
          { w0 with env := { w0.env with onCloseCalls := w0.env.onCloseCalls ++ [s] } }
      | none => w0
    else w0
  let w2 := Modal.removeDomEvents w1
  let p := setTimeout w2.env 500
  let w3 := { w2 with env := p.2, animateOutTimer := some p.1 }
  Modal.restoreLastFocus w3

/-- Modal.onDocumentKeyPress, lines 89 to 104: ignore non-Escape keys,
default-prevented events, and everything when closeable is false; otherwise
close with source escape. -/
def Modal.onDocumentKeyPress (w : World) (key : String) (defaultPrevented : Bool) : World :=
  if key ≠ "Escape" then w
  else if defaultPrevented then w
  else if w.props.closeable = false then w
  else Modal.close w (some .escape)

/-- Modal.onBackdropClick, lines 106 to 111. -/
def Modal.onBackdropClick (w : World) : World :=
  if w.props.closeable = false then w
  else Modal.close w (some .backdrop)

/-- Modal.onCloseClick, lines 113 to 115: no closeable guard. -/
def Modal.onCloseClick (w : World) : World :=
  Modal.close w (some .closeButton)

/-- Modal.componentDidMount, lines 53 to 55. -/
def Modal.componentDidMount (w : World) : World :=
  { w with st := { w.st with mounted := true } }

/-- Modal.componentDidUpdate, lines 62 to 75: when isOpen changed, or the
component just mounted with isOpen already true, run the open or close
transition. -/
def Modal.componentDidUpdate (w : World) (prevProps : ModalProps) (prevState : ModalState) : World :=
  if w.props.isOpen ≠ prevProps.isOpen ∨
     (w.props.isOpen = true ∧ w.st.mounted = true ∧ prevState.mounted = false) then
    if w.props.isOpen then Modal.openModal w else Modal.close w none
  else w

/-- Modal.componentWillUnmount, lines 57 to 60. -/
def Modal.componentWillUnmount (w : World) : World :=
  Modal.clearTimers (Modal.removeDomEvents w)

/-- Modal.getSharedProps, lines 190 to 200: the prop bundle passed to every
slot. -/
structure SharedProps where
  animate : Bool
  isVisible : Bool
  isOpen : Bool
  size : Size
  role : Role
  closeable : Bool
deriving DecidableEq, Repr

def Modal.getSharedProps (w : World) : SharedProps :=
  { animate := w.props.animate,
    isVisible := w.st.isVisible,
    isOpen := w.props.isOpen,
    size := w.props.size,
    role := w.props.role,
    closeable := w.props.closeable }

/-- The dialog subtree produced by Modal.renderModal, lines 231 to 300:
the Root role, the ref handles attached to Root and Dialog, the fixed
accessibility attributes on Dialog, whether the Close slot is rendered,
and the shared prop bundle given to the slots. -/
structure ModalTree where
  rootRole : Role
  rootRef : RefHandle
  dialogRef : RefHandle
  dialogAriaModal : String
  dialogRole : String
  closeSlot : Bool
  shared : SharedProps
deriving DecidableEq, Repr

/-- Modal.renderModal, lines 231 to 300: the Close slot is rendered exactly
when closeable is true (line 285). -/
def Modal.renderModal (w : World) : ModalTree :=
  { rootRole := w.props.role,
    rootRef := Modal.getRef w "Root",
    dialogRef := Modal.getRef w "Dialog",
    dialogAriaModal := "true",
    dialogRole := "document",
    closeSlot := w.props.closeable,
    shared := Modal.getSharedProps w }

/-- A portal: the dialog subtree rendered into a mount node outside the
normal tree. -/
structure Portal where
  target : Elem
  tree : ModalTree
deriving DecidableEq, Repr

/-- Modal.render, lines 302 to 316: nothing before mount, nothing when both
isOpen and isVisible are false, nothing without a mount node; otherwise the
subtree is rendered into the portal target. -/
def Modal.render (w : World) : Option Portal :=
  if w.st.mounted = false then none
  else if w.props.isOpen = false ∧ w.st.isVisible = false then none
  else
    match Modal.getMountNode w with
    | none => none
    | some mountNode => some { target := mountNode, tree := Modal.renderModal w }

/-- The external steps the component can experience: React lifecycle
(mount, prop update, unmount), DOM events delivered to its handlers, the
expiry of scheduled callbacks, and the passage of time. -/
inductive Event
  | mount
  | setIsOpen (b : Bool)
  | keyup (key : String) (defaultPrevented : Bool)
  | backdropClick
  | closeClick
  | fireFrame (id : Nat)
  | fireTimeout (id : Nat)
  | tick (d : Nat)
  | unmount
deriving DecidableEq, Repr

/-- One step of the world.  mount runs componentDidMount and then the
update pass React performs for the setState it contains; setIsOpen updates
the prop and runs componentDidUpdate (updates only reach mounted
components); keyup reaches the handler only while the document listener is
attached; fireFrame runs the pending next-frame callback (sets isVisible to
true); fireTimeout runs the pending animateOutComplete (sets isVisible to
false); tick advances time. -/
def stepE (w : World) : Event → World
  | .mount =>
      if w.st.mounted then w
      else
        let prevState := w.st
        let w1 := Modal.componentDidMount w
        Modal.componentDidUpdate w1 w1.props prevState
  | .setIsOpen b =>
      if w.st.mounted = false then
        { w with props := { w.props with isOpen := b } }
      else
        let prevProps := w.props
        let w1 := { w with props := { w.props with isOpen := b } }
        Modal.componentDidUpdate w1 prevProps w1.st
  | .keyup key defaultPrevented =>
      if w.docListener then Modal.onDocumentKeyPress w key defaultPrevented else w
  | .backdropClick => Modal.onBackdropClick w
  | .closeClick => Modal.onCloseClick w
  | .fireFrame id =>
      if w.env.pendingFrames.any (fun p => p.1 = id) then
        { w with
            st := { w.st with isVisible := true },
            env := { w.env with pendingFrames := w.env.pendingFrames.filter (fun p => p.1 ≠ id) } }
      else w
  | .fireTimeout id =>
      if w.env.pendingTimeouts.any (fun p => p.1 = id) then
        { w with
            st := { w.st with isVisible := false },
            env := { w.env with pendingTimeouts := w.env.pendingTimeouts.filter (fun p => p.1 ≠ id) } }
      else w
  | .tick d => { w with env := { w.env with now := w.env.now + d } }
  | .unmount => Modal.componentWillUnmount w

/-- Run a sequence of steps. -/
def run (w : World) (es : List Event) : World :=
  es.foldl stepE w

/-- A freshly constructed, not yet mounted Modal instance (state lines 48
to 51, fields lines 43 to 46) in an environment with no pending callbacks
and an empty callback log. -/
def initWorld (p : ModalProps) (e : Env) : World :=
  { props := p,
    st := { isVisible := false, mounted := false },
    animateOutTimer := none,
    animateStartTimer := none,
    lastFocus := none,
    docListener := false,
    env := { e with pendingFrames := [], pendingTimeouts := [], onCloseCalls := [] } }

/-- Kind of a pending callback: a next-frame callback (sets isVisible to
true) or an animate-out timeout (sets isVisible to false). -/
inductive CbKind
  | frame
  | timeout
deriving DecidableEq, Repr

/-- Scheduling order on (id, due, kind) entries: earlier due time first,
ties broken by scheduling order (lower id first). -/
def dueLe (p q : Nat × Nat × CbKind) : Bool :=
  p.2.1 < q.2.1 ∨ (p.2.1 = q.2.1 ∧ p.1 ≤ q.1)

def insertByDue (x : Nat × Nat × CbKind) : List (Nat × Nat × CbKind) → List (Nat × Nat × CbKind)
  | [] => [x]
  | y :: ys => if dueLe x y then x :: y :: ys else y :: insertByDue x ys

def sortByDue : List (Nat × Nat × CbKind) → List (Nat × Nat × CbKind)
  | [] => []
  | x :: xs => insertByDue x (sortByDue xs)

/-- All pending callbacks of the world, tagged with their kind. -/
def pendingAll (w : World) : List (Nat × Nat × CbKind) :=
  w.env.pendingFrames.map (fun p => (p.1, p.2, CbKind.frame)) ++
    w.env.pendingTimeouts.map (fun p => (p.1, p.2, CbKind.timeout))

/-- Run one pending callback: a frame callback sets isVisible to true, a
timeout runs animateOutComplete; either way the callback leaves the pending
list. -/
def runCallback (w : World) : Nat × Nat × CbKind → World
  | (id, _, .frame) =>
      { w with
          st := { w.st with isVisible := true },
          env := { w.env with pendingFrames := w.env.pendingFrames.filter (fun p => p.1 ≠ id) } }
  | (id, _, .timeout) =>
      { (Modal.animateOutComplete w) with
          env := { w.env with pendingTimeouts := w.env.pendingTimeouts.filter (fun p => p.1 ≠ id) } }

/-- Let every still-pending scheduled callback run, in scheduling order
(earliest due first, ties in scheduling order). -/
def firePending (w : World) : World :=
  (sortByDue (pendingAll w)).foldl runCallback w

/-- Host-supplied props before defaultProps are merged: every field with a
default may be omitted. -/
structure HostProps where
  animate : Option Bool
  autofocus : Option Bool
  closeable : Option Bool
  isOpen : Option Bool
  overrides : Option Overrides
  role : Option Role
  size : Option Size
  mountNode : Option Elem
  hasOnClose : Bool
deriving DecidableEq, Repr

/-- Modal.defaultProps, lines 33 to 41, merged the way React merges
defaultProps: a supplied field wins, an omitted field takes the default. -/
def applyDefaultProps (h : HostProps) : ModalProps :=
  { animate := h.animate.getD true,
    autofocus := h.autofocus.getD true,
    closeable := h.closeable.getD true,
    isOpen := h.isOpen.getD false,
    overrides := h.overrides.getD { dialogRef := none },
    role := h.role.getD Role.dialog,
    size := h.size.getD Size.default,
    mountNode := h.mountNode,
    hasOnClose := h.hasOnClose }

/-- Where the active focus ends up after restoreLastFocus: the remembered
element when it can receive focus, otherwise unchanged. -/
def restoreTarget (w : World) : Option Elem :=
  match w.lastFocus with
  | some el => if el.canFocus then some el else w.env.activeElement
  | none => w.env.activeElement

/-- The onClose invocations a close transition emits: exactly one when both
a callback and a source are present, none otherwise. -/
def closeEmitted (p : ModalProps) (s : Option CloseSource) : List CloseSource :=
  if p.hasOnClose then
    match s with
    | some cs => [cs]
    | none => []
  else []

/-- Remove the callback named by an optional id from a pending list. -/
def cancelPending (l : List (Nat × Nat)) : Option Nat → List (Nat × Nat)
  | some id => l.filter (fun p => p.1 ≠ id)
  | none => l

/-- Where the active focus ends up after autoFocus. -/
def autoFocusActive (w : World) : Option Elem :=
  if w.props.autofocus = false then w.env.activeElement
  else
    match w.env.refCurrent (Modal.getRef w "Dialog") with
    | none => w.env.activeElement
    | some dialog => some dialog

/-- The scroll-reset log after the open transition. -/
def openScrollResets (w : World) : List RefHandle :=
  match w.env.refCurrent (Modal.getRef w "Root") with
  | some _ => w.env.scrollResets ++ [Modal.getRef w "Root"]
  | none => w.env.scrollResets

theorem Modal.restoreLastFocus_eq (w : World) :
    Modal.restoreLastFocus w =
      { w with lastFocus := none, env := { w.env with activeElement := restoreTarget w } } := by
  obtain ⟨p, st, aot, ast, lf, dl, e⟩ := w
  rcases lf with _ | el
  · simp [Modal.restoreLastFocus, restoreTarget]
  · cases hcf : el.canFocus <;> simp [Modal.restoreLastFocus, restoreTarget, hcf]

theorem Modal.clearTimers_eq (w : World) :
    Modal.clearTimers w =
      { w with env := { w.env with
          pendingFrames := cancelPending w.env.pendingFrames w.animateStartTimer,
          pendingTimeouts := cancelPending w.env.pendingTimeouts w.animateOutTimer } } := by
  obtain ⟨p, st, aot, ast, lf, dl, e⟩ := w
  cases aot <;> cases ast <;>
    simp [Modal.clearTimers, clearTimeout, cancelAnimationFrame, cancelPending]

theorem Modal.close_eq (w : World) (s : Option CloseSource) :
    Modal.close w s =
      { props := w.props,
        st := w.st,
        animateOutTimer := some w.env.nextId,
        animateStartTimer := w.animateStartTimer,
        lastFocus := none,
        docListener := false,
        env := { w.env with
          nextId := w.env.nextId + 1,
          pendingTimeouts := w.env.pendingTimeouts ++ [(w.env.nextId, w.env.now + 500)],
          activeElement := restoreTarget w,
          onCloseCalls := w.env.onCloseCalls ++ closeEmitted w.props s } } := by
  obtain ⟨p, st, aot, ast, lf, dl, e⟩ := w
  cases hoc : p.hasOnClose <;> rcases s with _ | cs <;> rcases lf with _ | el <;>
    simp [Modal.close, Modal.removeDomEvents, Modal.restoreLastFocus, setTimeout,
          restoreTarget, closeEmitted, hoc] <;>
    cases hcf : el.canFocus <;> simp [hcf]

theorem Modal.openModal_eq (w : World) :
    Modal.openModal w =
      { props := w.props,
        st := w.st,
        animateOutTimer := w.animateOutTimer,
        animateStartTimer := some w.env.nextId,
        lastFocus := w.env.activeElement,
        docListener := true,
        env := { w.env with
          nextId := w.env.nextId + 1,
          pendingFrames :=
            cancelPending w.env.pendingFrames w.animateStartTimer ++
              [(w.env.nextId, w.env.now + w.env.frameDelay)],
          pendingTimeouts := cancelPending w.env.pendingTimeouts w.animateOutTimer,
          activeElement := autoFocusActive w,
          scrollResets := openScrollResets w } } := by
  obtain ⟨p, st, aot, ast, lf, dl, e⟩ := w
  obtain ⟨io, cl, af, an, sz, rl, mn, hoc, ⟨dref⟩⟩ := p
  obtain ⟨now, nid, fd, pf, pt, ae, db, ocur, ircur, idcur, sr, occ⟩ := e
  cases af <;> cases dref <;> cases ocur <;> cases ircur <;> cases idcur <;>
    simp [Modal.openModal, Modal.captureLastFocus, Modal.autoFocus, Modal.resetScrollTop,
          Modal.addDomEvents, requestAnimationFrame, Modal.clearTimers_eq,
          autoFocusActive, openScrollResets, Modal.getRef, Env.refCurrent]

theorem Modal.onDocumentKeyPress_eq (w : World) (key : String) (dp : Bool) :
    Modal.onDocumentKeyPress w key dp =
      if key = "Escape" ∧ dp = false ∧ w.props.closeable = true then
        Modal.close w (some CloseSource.escape)
      else w := by
  by_cases hk : key = "Escape" <;> cases dp <;> cases hc : w.props.closeable <;>
    simp [Modal.onDocumentKeyPress, hk, hc]

theorem Modal.onBackdropClick_eq (w : World) :
    Modal.onBackdropClick w =
      if w.props.closeable = true then Modal.close w (some CloseSource.backdrop) else w := by
  cases hc : w.props.closeable <;> simp [Modal.onBackdropClick, hc]

theorem Modal.componentDidUpdate_st (w : World) (pp : ModalProps) (ps : ModalState) :
    (Modal.componentDidUpdate w pp ps).st = w.st := by
  unfold Modal.componentDidUpdate
  split
  · split <;> simp [Modal.openModal_eq, Modal.close_eq]
  · rfl

theorem Modal.componentWillUnmount_eq (w : World) :
    Modal.componentWillUnmount w =
      { w with
          docListener := false,
          env := { w.env with
            pendingFrames := cancelPending w.env.pendingFrames w.animateStartTimer,
            pendingTimeouts := cancelPending w.env.pendingTimeouts w.animateOutTimer } } := by
  simp [Modal.componentWillUnmount, Modal.removeDomEvents, Modal.clearTimers_eq]

theorem cancelPending_nil (o : Option Nat) : cancelPending [] o = [] := by
  cases o <;> simp [cancelPending]

theorem Modal.onDocumentKeyPress_st (w : World) (key : String) (dp : Bool) :
    (Modal.onDocumentKeyPress w key dp).st = w.st := by
  rw [Modal.onDocumentKeyPress_eq]; split <;> simp [Modal.close_eq]

theorem Modal.onDocumentKeyPress_frames (w : World) (key : String) (dp : Bool) :
    (Modal.onDocumentKeyPress w key dp).env.pendingFrames = w.env.pendingFrames := by
  rw [Modal.onDocumentKeyPress_eq]; split <;> simp [Modal.close_eq]

theorem Modal.onBackdropClick_st (w : World) : (Modal.onBackdropClick w).st = w.st := by
  rw [Modal.onBackdropClick_eq]; split <;> simp [Modal.close_eq]

theorem Modal.onBackdropClick_frames (w : World) :
    (Modal.onBackdropClick w).env.pendingFrames = w.env.pendingFrames := by
  rw [Modal.onBackdropClick_eq]; split <;> simp [Modal.close_eq]

theorem Modal.onCloseClick_st (w : World) : (Modal.onCloseClick w).st = w.st := by
  simp [Modal.onCloseClick, Modal.close_eq]

theorem Modal.onCloseClick_frames (w : World) :
    (Modal.onCloseClick w).env.pendingFrames = w.env.pendingFrames := by
  simp [Modal.onCloseClick, Modal.close_eq]

/-- The safety property of C1: before mount the dialog is not visible and no
next-frame callback (the only thing that sets isVisible to true) is
pending. -/
def VisGate (w : World) : Prop :=
  w.st.mounted = false → w.st.isVisible = false ∧ w.env.pendingFrames = []

theorem stepE_mount_mounted (w : World) (h : w.st.mounted = false) :
    (stepE w Event.mount).st.mounted = true := by
  simp [stepE, h, Modal.componentDidUpdate_st, Modal.componentDidMount]

theorem stepE_mounted (w : World) (ev : Event) (h : w.st.mounted = true) :
    (stepE w ev).st.mounted = true := by
  cases ev with
  | mount => simp [stepE, h]
  | setIsOpen b => simp [stepE, h, Modal.componentDidUpdate_st]
  | keyup key dp =>
      cases hdl : w.docListener <;> simp [stepE, hdl, Modal.onDocumentKeyPress_st, h]
  | backdropClick => simp [stepE, Modal.onBackdropClick_st, h]
  | closeClick => simp [stepE, Modal.onCloseClick_st, h]
  | fireFrame id => simp [stepE]; split <;> simp [h]
  | fireTimeout id => simp [stepE]; split <;> simp [h]
  | tick d => simp [stepE, h]
  | unmount => simp [stepE, Modal.componentWillUnmount_eq, h]

theorem stepE_visGate (w : World) (ev : Event) (h : VisGate w) : VisGate (stepE w ev) := by
  cases ev with
  | mount =>
      cases hmt : w.st.mounted
      · intro hm; rw [stepE_mount_mounted w hmt] at hm; cases hm
      · simpa [stepE, hmt] using h
  | setIsOpen b =>
      cases hmt : w.st.mounted
      · intro hm
        rcases h hmt with ⟨h1, h2⟩
        simp [stepE, hmt, h1, h2]
      · intro hm
        rw [show (stepE w (Event.setIsOpen b)).st.mounted = true by
              exact stepE_mounted w (Event.setIsOpen b) hmt] at hm
        cases hm
  | keyup key dp =>
      intro hm
      have hst : (stepE w (Event.keyup key dp)).st = w.st := by
        cases hdl : w.docListener <;> simp [stepE, hdl, Modal.onDocumentKeyPress_st]
      have hfr : (stepE w (Event.keyup key dp)).env.pendingFrames = w.env.pendingFrames := by
        cases hdl : w.docListener <;> simp [stepE, hdl, Modal.onDocumentKeyPress_frames]
      rw [hst] at hm ⊢
      rw [hfr]
      exact h hm
  | backdropClick =>
      intro hm
      rw [show (stepE w Event.backdropClick).st = w.st by
            simp [stepE, Modal.onBackdropClick_st]] at hm ⊢
      rw [show (stepE w Event.backdropClick).env.pendingFrames = w.env.pendingFrames by
            simp [stepE, Modal.onBackdropClick_frames]]
      exact h hm
  | closeClick =>
      intro hm
      rw [show (stepE w Event.closeClick).st = w.st by
            simp [stepE, Modal.onCloseClick_st]] at hm ⊢
      rw [show (stepE w Event.closeClick).env.pendingFrames = w.env.pendingFrames by
            simp [stepE, Modal.onCloseClick_frames]]
      exact h hm
  | fireFrame id =>
      cases hany : w.env.pendingFrames.any (fun p => p.1 = id)
      · intro hm; simp [stepE, hany] at hm ⊢; exact h (by simpa [stepE, hany] using hm)
      · intro hm
        simp [stepE, hany] at hm
        rcases h hm with ⟨_, h2⟩
        rw [h2] at hany
        simp at hany
  | fireTimeout id =>
      cases hany : w.env.pendingTimeouts.any (fun p => p.1 = id)
      · intro hm
        simp [stepE, hany] at hm ⊢
        exact h hm
      · intro hm
        simp [stepE, hany] at hm ⊢
        exact (h hm).2
  | tick d =>
      intro hm
      simp [stepE] at hm ⊢
      exact h hm
  | unmount =>
      intro hm
      simp [stepE, Modal.componentWillUnmount_eq] at hm ⊢
      rcases h hm with ⟨h1, h2⟩
      simp [h1, h2, cancelPending_nil]

theorem visGate_run (w : World) (es : List Event) (h : VisGate w) : VisGate (run w es) := by
  induction es generalizing w with
  | nil => exact h
  | cons e es ih =>
      have : run w (e :: es) = run (stepE w e) es := by simp [run]
      rw [this]
      exact ih _ (stepE_visGate w e h)

theorem visGate_initWorld (p : ModalProps) (e : Env) : VisGate (initWorld p e) := by
  intro hm
  simp [initWorld]

theorem Modal.componentDidUpdate_onCloseCalls (w : World) (pp : ModalProps) (ps : ModalState) :
    (Modal.componentDidUpdate w pp ps).env.onCloseCalls = w.env.onCloseCalls := by
  unfold Modal.componentDidUpdate
  split
  · split
    · simp [Modal.openModal_eq]
    · cases h : w.props.hasOnClose <;> simp [Modal.close_eq, closeEmitted, h]
  · rfl

/-- A focusable element and a host environment with nothing pending, used
as concrete instantiations. -/
def sampleElem : Elem :=
  { id := 0, canFocus := true }

def sampleEnv : Env :=
  { now := 0, nextId := 0, frameDelay := 16,
    pendingFrames := [], pendingTimeouts := [],
    activeElement := some sampleElem,
    documentBody := some { id := 1, canFocus := true },
    overrideCur := none, internalRootCur := none, internalDialogCur := none,
    scrollResets := [], onCloseCalls := [] }

/-- The host omitting every defaulted configuration field. -/
def emptyHostProps (onC : Bool) (mn : Option Elem) : HostProps :=
  { animate := none, autofocus := none, closeable := none, isOpen := none,
    overrides := none, role := none, size := none, mountNode := mn, hasOnClose := onC }

def sampleProps : ModalProps :=
  applyDefaultProps (emptyHostProps true none)

/-- A mounted, open, visible world. -/
def renderWorld : World :=
  { props := { sampleProps with isOpen := true },
    st := { isVisible := true, mounted := true },
    animateOutTimer := none, animateStartTimer := none, lastFocus := none,
    docListener := true,
    env := sampleEnv }

/-- A world with one pending animate-out timeout. -/
def timerWorld : World :=
  { renderWorld with env := { sampleEnv with pendingTimeouts := [(7, 500)] } }

/-- A world whose Dialog override supplies its own ref. -/
def overrideWorld : World :=
  { renderWorld with
      props := { renderWorld.props with overrides := { dialogRef := some 5 } } }

/-- C1: along every sequence of mount, prop-update, handler, timer, tick
and unmount steps from a fresh instance, isVisible is never true while
mounted is false; and mounted, once true, stays true on every further
step. -/
theorem c1_visibility_needs_mount (p : ModalProps) (e : Env) (es : List Event) :
    ((run (initWorld p e) es).st.isVisible = true →
        (run (initWorld p e) es).st.mounted = true) ∧
    (∀ ev : Event, (run (initWorld p e) es).st.mounted = true →
        (stepE (run (initWorld p e) es) ev).st.mounted = true) := by
  have hinv : VisGate (run (initWorld p e) es) := visGate_run _ _ (visGate_initWorld p e)
  constructor
  · intro hv
    cases hmt : (run (initWorld p e) es).st.mounted
    · rcases hinv hmt with ⟨h1, _⟩
      rw [hv] at h1
      cases h1
    · rfl
  · intro ev h
    exact stepE_mounted _ ev h

theorem c1_visibility_needs_mount_witness :
    (run (initWorld sampleProps sampleEnv)
        [Event.mount, Event.setIsOpen true, Event.fireFrame 0]).st.isVisible = true ∧
    (run (initWorld sampleProps sampleEnv)
        [Event.mount, Event.setIsOpen true, Event.fireFrame 0]).st.mounted = true ∧
    (stepE (run (initWorld sampleProps sampleEnv)
        [Event.mount, Event.setIsOpen true, Event.fireFrame 0]) Event.unmount).st.mounted = true := by
  have h := c1_visibility_needs_mount sampleProps sampleEnv
    [Event.mount, Event.setIsOpen true, Event.fireFrame 0]
  exact ⟨by decide, h.1 (by decide), h.2 Event.unmount (h.1 (by decide))⟩

/-- C2: the onClose log grows by exactly the one given source when a close
carries a source and a callback is supplied, and never otherwise; a close
driven by the host flipping isOpen to false (the setIsOpen step) never
invokes onClose; the close-button handler emits exactly one closeButton
invocation when a callback is supplied. -/
theorem c2_onClose_iff_sourced (w : World) (s : CloseSource) :
    ((Modal.close w (some s)).env.onCloseCalls =
        if w.props.hasOnClose then w.env.onCloseCalls ++ [s] else w.env.onCloseCalls) ∧
    ((Modal.close w none).env.onCloseCalls = w.env.onCloseCalls) ∧
    ((stepE w (Event.setIsOpen false)).env.onCloseCalls = w.env.onCloseCalls) ∧
    ((Modal.onCloseClick w).env.onCloseCalls =
        if w.props.hasOnClose then w.env.onCloseCalls ++ [CloseSource.closeButton]
        else w.env.onCloseCalls) := by
  refine ⟨?_, ?_, ?_, ?_⟩
  · cases h : w.props.hasOnClose <;> simp [Modal.close_eq, closeEmitted, h]
  · cases h : w.props.hasOnClose <;> simp [Modal.close_eq, closeEmitted, h]
  · cases hmt : w.st.mounted <;>
      simp [stepE, hmt, Modal.componentDidUpdate_onCloseCalls]
  · cases h : w.props.hasOnClose <;>
      simp [Modal.onCloseClick, Modal.close_eq, closeEmitted, h]

/-- C3: render produces nothing exactly when the component is unmounted,
or both isOpen and isVisible are false, or no mount node resolves; in the
remaining cases the dialog subtree is rendered into the portal target. -/
theorem c3_render_suppression (w : World) :
    (Modal.render w = none ↔
      (w.st.mounted = false ∨ (w.props.isOpen = false ∧ w.st.isVisible = false) ∨
        Modal.getMountNode w = none)) ∧
    (∀ m : Elem, w.st.mounted = true → (w.props.isOpen = true ∨ w.st.isVisible = true) →
      Modal.getMountNode w = some m →
      Modal.render w = some { target := m, tree := Modal.renderModal w }) := by
  constructor
  · unfold Modal.render
    cases hmt : w.st.mounted <;> cases hio : w.props.isOpen <;> cases hv : w.st.isVisible <;>
      cases hmn : Modal.getMountNode w <;> simp [hmt, hio, hv, hmn]
  · intro m hmt hor hmn
    unfold Modal.render
    rcases hor with h | h <;> simp [hmt, h, hmn]

theorem c3_render_suppression_witness :
    Modal.render renderWorld =
      some { target := { id := 1, canFocus := true }, tree := Modal.renderModal renderWorld } :=
  (c3_render_suppression renderWorld).2 { id := 1, canFocus := true }
    (by decide) (Or.inl (by decide)) (by decide)

/-- C4: opening stores the element focused at open time into lastFocus;
every close clears the memento and moves focus back to the stored element
when it can receive focus (skipping it silently otherwise); a second
consecutive close changes focus no further. -/
theorem c4_focus_memento (w : World) (s t : Option CloseSource) :
    ((Modal.openModal w).lastFocus = w.env.activeElement) ∧
    ((Modal.close w s).lastFocus = none) ∧
    ((Modal.close w s).env.activeElement =
        match w.lastFocus with
        | some el => if el.canFocus then some el else w.env.activeElement
        | none => w.env.activeElement) ∧
    ((Modal.close (Modal.close w s) t).env.activeElement =
        (Modal.close w s).env.activeElement) := by
  refine ⟨?_, ?_, ?_, ?_⟩
  · simp [Modal.openModal_eq]
  · simp [Modal.close_eq]
  · simp [Modal.close_eq, restoreTarget]
  · simp [Modal.close_eq, restoreTarget]

/-- C5: the document key handler closes with source escape exactly when the
key is Escape, the event is not default-prevented, and closeable is true;
in every other case the world is returned unchanged. -/
theorem c5_escape_handler (w : World) (key : String) (dp : Bool) :
    Modal.onDocumentKeyPress w key dp =
      if key = "Escape" ∧ dp = false ∧ w.props.closeable = true then
        Modal.close w (some CloseSource.escape)
      else w :=
  Modal.onDocumentKeyPress_eq w key dp

/-- C6: from a visible state with no pending hide timer, a close schedules
exactly one 500-unit timer and records its id, stays visible, and a
subsequent open cancels that timer while remaining visible; firing any
pending hide timer sets isVisible to false. -/
theorem c6_close_timer_cancelled_by_open (w w2 : World) (s : Option CloseSource) (i d : Nat)
    (h1 : w.st.isVisible = true) (h2 : w.env.pendingTimeouts = [])
    (h3 : (i, d) ∈ w2.env.pendingTimeouts) :
    (Modal.close w s).env.pendingTimeouts = [(w.env.nextId, w.env.now + 500)] ∧
    (Modal.close w s).animateOutTimer = some w.env.nextId ∧
    (Modal.close w s).st.isVisible = true ∧
    (Modal.openModal (Modal.close w s)).env.pendingTimeouts = [] ∧
    (Modal.openModal (Modal.close w s)).st.isVisible = true ∧
    (stepE w2 (Event.fireTimeout i)).st.isVisible = false := by
  refine ⟨?_, ?_, ?_, ?_, ?_, ?_⟩
  · simp [Modal.close_eq, h2]
  · simp [Modal.close_eq]
  · simp [Modal.close_eq, h1]
  · simp [Modal.openModal_eq, Modal.close_eq, cancelPending, h2]
  · simp [Modal.openModal_eq, Modal.close_eq, h1]
  · have hany : w2.env.pendingTimeouts.any (fun p => p.1 = i) = true := by
      rw [List.any_eq_true]
      exact ⟨(i, d), h3, by simp⟩
    simp [stepE, hany]

theorem c6_close_timer_cancelled_by_open_witness :
    (Modal.close renderWorld (some CloseSource.backdrop)).env.pendingTimeouts = [(0, 500)] ∧
    (Modal.openModal (Modal.close renderWorld (some CloseSource.backdrop))).env.pendingTimeouts
        = [] ∧
    (stepE timerWorld (Event.fireTimeout 7)).st.isVisible = false := by
  have h := c6_close_timer_cancelled_by_open renderWorld timerWorld
    (some CloseSource.backdrop) 7 500 (by decide) (by decide) (by decide)
  exact ⟨h.1, h.2.2.2.1, h.2.2.2.2.2⟩

/-- C7: when an open (which schedules the next-frame callback) is followed
by a close before that callback fires, the close leaves the frame callback
pending (it does not cancel it), yet once every still-pending scheduled
callback has run in scheduling order, isVisible is false and nothing
remains pending.  The hypothesis frameDelay ≤ 500 says the next paint
frame is not later than the hide timer. -/
theorem c7_no_dangling_visible (w w2 : World) (s : Option CloseSource) (d : Nat)
    (hF : w.env.frameDelay ≤ 500)
    (hf : w.env.pendingFrames = []) (ht : w.env.pendingTimeouts = [])
    (hw2 : w2 = Modal.close (stepE (Modal.openModal w) (Event.tick d)) s) :
    w2.env.pendingFrames = [(w.env.nextId, w.env.now + w.env.frameDelay)] ∧
    (firePending w2).st.isVisible = false ∧
    (firePending w2).env.pendingFrames = [] ∧
    (firePending w2).env.pendingTimeouts = [] := by
  have hframes : w2.env.pendingFrames = [(w.env.nextId, w.env.now + w.env.frameDelay)] := by
    subst hw2
    simp [Modal.close_eq, stepE, Modal.openModal_eq, hf, cancelPending_nil]
  have htimeouts : w2.env.pendingTimeouts = [(w.env.nextId + 1, w.env.now + d + 500)] := by
    subst hw2
    simp [Modal.close_eq, stepE, Modal.openModal_eq, ht, cancelPending_nil]
  have hpall : pendingAll w2 =
      [(w.env.nextId, w.env.now + w.env.frameDelay, CbKind.frame),
       (w.env.nextId + 1, w.env.now + d + 500, CbKind.timeout)] := by
    simp [pendingAll, hframes, htimeouts]
  have hle : dueLe (w.env.nextId, w.env.now + w.env.frameDelay, CbKind.frame)
      (w.env.nextId + 1, w.env.now + d + 500, CbKind.timeout) = true := by
    simp only [dueLe, decide_eq_true_eq]
    omega
  have hfp : firePending w2 =
      runCallback (runCallback w2 (w.env.nextId, w.env.now + w.env.frameDelay, CbKind.frame))
        (w.env.nextId + 1, w.env.now + d + 500, CbKind.timeout) := by
    rw [firePending, hpall]
    simp [sortByDue, insertByDue, hle]
  refine ⟨hframes, ?_, ?_, ?_⟩
  · rw [hfp]; simp [runCallback, Modal.animateOutComplete]
  · rw [hfp]; simp [runCallback, Modal.animateOutComplete, hframes]
  · rw [hfp]; simp [runCallback, Modal.animateOutComplete, htimeouts]

theorem c7_no_dangling_visible_witness :
    (firePending (Modal.close
        (stepE (Modal.openModal (initWorld sampleProps sampleEnv)) (Event.tick 3))
        none)).st.isVisible = false := by
  have h := c7_no_dangling_visible (initWorld sampleProps sampleEnv)
    (Modal.close (stepE (Modal.openModal (initWorld sampleProps sampleEnv)) (Event.tick 3)) none)
    none 3 (by decide) (by decide) (by decide) rfl
  exact h.2.1

/-- C8: the Close slot is rendered exactly when closeable is true; the
close-button handler closes with source closeButton with no closeable
guard; the backdrop handler is a no-op when closeable is false. -/
theorem c8_close_slot_and_handlers (w : World) :
    ((Modal.renderModal w).closeSlot = w.props.closeable) ∧
    (Modal.onCloseClick w = Modal.close w (some CloseSource.closeButton)) ∧
    (Modal.onBackdropClick w =
        if w.props.closeable = true then Modal.close w (some CloseSource.backdrop) else w) :=
  ⟨rfl, rfl, Modal.onBackdropClick_eq w⟩

/-- C9 as stated is false: when the Dialog override supplies a ref, getRef
returns that very ref for the Root handle as well, so the Root handle is
neither internally managed nor distinct from the Dialog handle. -/
theorem c9_root_ref_counterexample :
    Modal.getRef overrideWorld "Root" = RefHandle.overrideRef 5 ∧
    Modal.getRef overrideWorld "Root" = Modal.getRef overrideWorld "Dialog" ∧
    Modal.getRef overrideWorld "Root" ≠ RefHandle.internalRef "Root" := by
  decide

/-- C9 amended: a ref supplied in the Dialog override props is used for
every handle getRef returns, the Dialog handle and also the Root handle
that the open transition resets scroll through; the internally managed
per-name refs are used only when the Dialog override supplies no ref. -/
theorem c9_dialog_ref_override (w : World) (c : String) (r : Nat) :
    (w.props.overrides.dialogRef = some r → Modal.getRef w c = RefHandle.overrideRef r) ∧
    (w.props.overrides.dialogRef = none → Modal.getRef w c = RefHandle.internalRef c) ∧
    ((Modal.openModal w).env.scrollResets =
        if (w.env.refCurrent (Modal.getRef w "Root")).isSome then
          w.env.scrollResets ++ [Modal.getRef w "Root"]
        else w.env.scrollResets) := by
  refine ⟨?_, ?_, ?_⟩
  · intro h; simp [Modal.getRef, h]
  · intro h; simp [Modal.getRef, h]
  · rw [Modal.openModal_eq]
    cases hc : w.env.refCurrent (Modal.getRef w "Root") <;> simp [openScrollResets, hc]

theorem c9_dialog_ref_override_witness :
    Modal.getRef overrideWorld "Dialog" = RefHandle.overrideRef 5 ∧
    Modal.getRef renderWorld "Root" = RefHandle.internalRef "Root" :=
  ⟨(c9_dialog_ref_override overrideWorld "Dialog" 5).1 (by decide),
   (c9_dialog_ref_override renderWorld "Root" 0).2.1 (by decide)⟩

/-- C10: omitting every defaulted configuration field yields closeable,
autofocus and animate true, isOpen false, role dialog, size default and
empty overrides; and with closeable true the close button is rendered and
the Escape and backdrop dismissals are live. -/
theorem c10_default_props (onC : Bool) (mn : Option Elem) (w : World) :
    (applyDefaultProps (emptyHostProps onC mn) =
      { animate := true, autofocus := true, closeable := true, isOpen := false,
        overrides := { dialogRef := none }, role := Role.dialog, size := Size.default,
        mountNode := mn, hasOnClose := onC }) ∧
    (w.props.closeable = true →
      (Modal.renderModal w).closeSlot = true ∧
      Modal.onDocumentKeyPress w "Escape" false = Modal.close w (some CloseSource.escape) ∧
      Modal.onBackdropClick w = Modal.close w (some CloseSource.backdrop)) := by
  refine ⟨rfl, ?_⟩
  intro h
  refine ⟨h, ?_, ?_⟩
  · rw [Modal.onDocumentKeyPress_eq]; simp [h]
  · rw [Modal.onBackdropClick_eq]; simp [h]

theorem c10_default_props_witness :
    applyDefaultProps (emptyHostProps true none) =
      { animate := true, autofocus := true, closeable := true, isOpen := false,
        overrides := { dialogRef := none }, role := Role.dialog, size := Size.default,
        mountNode := none, hasOnClose := true } ∧
    (Modal.renderModal renderWorld).closeSlot = true := by
  have h := c10_default_props true none renderWorld
  exact ⟨h.1, (h.2 (by decide)).1⟩
